import Mathlib

/-!
Shallow embedding of the ehr1 hospital-records application core
(storage layer, vitals history recorder, statistics, CSV export,
patient-id generation, and the AI fallback routines), together with
theorems settling the specification claims about it.

Conventions:
* JavaScript numbers are modelled as rationals (`ℚ`); machine floats are
  not needed because every claimed property involves only comparisons and
  exact small arithmetic.
* Timestamps (`Date` values / epoch milliseconds) are modelled as `Nat`;
  where code reads the clock, the functions take an explicit `now`
  argument.
* SQL tables and JS `Map`s are modelled as lists in insertion order;
  `insert` appends, `delete` filters, `select ... where` filters.
* A `Partial` payload field is `Option ℚ`: `none` for an absent field
  (JS `undefined`/`null`, both falsy), `some v` for a provided number.
-/

namespace EHR

/-- The three-tier severity classification returned by `getVitalStatus`. -/
inductive VitalStatus where
  | Critical
  | Warning
  | Normal
deriving DecidableEq, Repr

/-- Embedding of `getVitalStatus(systolic, diastolic, sugar)` from the UI
components (identical copies in the patient modal, patient management and
patient portal components):
`Critical` if `systolic > 140 || diastolic > 90 || sugar > 200`, else
`Warning` if `systolic > 120 || diastolic > 80 || sugar > 140`, else
`Normal`. -/
def getVitalStatus (systolic diastolic sugar : ℚ) : VitalStatus :=
  if systolic > 140 ∨ diastolic > 90 ∨ sugar > 200 then .Critical
  else if systolic > 120 ∨ diastolic > 80 ∨ sugar > 140 then .Warning
  else .Normal

/-- A row of the `patients` table (shared/schema `patients`).  The `real`
and `integer` vitals columns are modelled uniformly as `ℚ`; nullable
columns (`weight`, `height`) as `Option ℚ`. -/
structure Patient where
  id : Nat
  patientId : String
  name : String
  age : ℚ
  phone : String
  bloodSugar : ℚ
  bloodPressureSystolic : ℚ
  bloodPressureDiastolic : ℚ
  weight : Option ℚ
  height : Option ℚ
  medicalHistory : String
  createdAt : Nat
  updatedAt : Nat
  createdBy : Nat
  isActive : Bool
deriving DecidableEq, Repr

/-- A row of the `health_history` table.  Note the table has no `weight`
or `height` columns: the storage layer passes those values along on
insert but they are dropped at the schema boundary. -/
structure HealthHistory where
  id : Nat
  patientId : Nat
  recordedBy : Nat
  bloodSugar : Option ℚ
  bloodPressureSystolic : Option ℚ
  bloodPressureDiastolic : Option ℚ
  changeType : String
  notes : Option String
  timestamp : Nat
deriving DecidableEq, Repr

/-- The fields accepted by `insertPatientSchema` (zod), i.e. the shape of
a validated `POST /api/patients` body. -/
structure InsertPatient where
  name : String
  age : ℚ
  phone : String
  bloodSugar : ℚ
  bloodPressureSystolic : ℚ
  bloodPressureDiastolic : ℚ
  weight : Option ℚ
  height : Option ℚ
  medicalHistory : String
deriving DecidableEq, Repr

/-- A `Partial<InsertPatient>` payload as produced by
`insertPatientSchema.partial().parse(req.body)`: every field optional. -/
structure PatientUpdate where
  name : Option String := none
  age : Option ℚ := none
  phone : Option String := none
  bloodSugar : Option ℚ := none
  bloodPressureSystolic : Option ℚ := none
  bloodPressureDiastolic : Option ℚ := none
  weight : Option ℚ := none
  height : Option ℚ := none
  medicalHistory : Option String := none
deriving DecidableEq, Repr

/-- The relational store backing `DatabaseStorage`: each table is a list
in insertion order, plus the serial-id counters. -/
structure DB where
  patients : List Patient
  healthHistory : List HealthHistory
  healthPredictions : List Nat
  nextPatientId : Nat
  nextHistoryId : Nat
deriving DecidableEq, Repr

/-- The payload of `createHealthHistory` after the schema boundary
(columns of `health_history` minus the generated id and timestamp). -/
structure InsertHealthHistory where
  patientId : Nat
  recordedBy : Nat
  bloodSugar : Option ℚ
  bloodPressureSystolic : Option ℚ
  bloodPressureDiastolic : Option ℚ
  changeType : String
  notes : Option String
deriving DecidableEq, Repr

/-- JavaScript truthiness of a possibly-absent number: `undefined`,
`null` and `0` are falsy. -/
def truthy : Option ℚ → Bool
  | some v => v ≠ 0
  | none => false

/-- JavaScript `a || b` where `a` is a possibly-absent number and `b` a
present one: yields `a` when `a` is truthy, otherwise `b`. -/
def jsOr (a : Option ℚ) (b : ℚ) : ℚ :=
  match a with
  | some v => if v = 0 then b else v
  | none => b

/-- JavaScript `a || b` for two possibly-absent numbers (used for the
nullable `weight`/`height` columns). -/
def jsOrOpt (a b : Option ℚ) : Option ℚ :=
  if truthy a then a else b

/-- Embedding of `DatabaseStorage.getPatient`: `select ... where id = _`
and take the first row. -/
def DB.getPatient (db : DB) (id : Nat) : Option Patient :=
  (db.patients.filter (fun p => p.id = id)).head?

/-- Embedding of `DatabaseStorage.createHealthHistory`: insert one row
with the generated serial id and the default-now timestamp, returning
the inserted row. -/
def DB.createHealthHistory (db : DB) (ins : InsertHealthHistory) (now : Nat) :
    HealthHistory × DB :=
  let e : HealthHistory :=
    { id := db.nextHistoryId
      patientId := ins.patientId
      recordedBy := ins.recordedBy
      bloodSugar := ins.bloodSugar
      bloodPressureSystolic := ins.bloodPressureSystolic
      bloodPressureDiastolic := ins.bloodPressureDiastolic
      changeType := ins.changeType
      notes := ins.notes
      timestamp := now }
  (e, { db with healthHistory := db.healthHistory ++ [e]
                nextHistoryId := db.nextHistoryId + 1 })

/-- Embedding of `DatabaseStorage.createPatient`: insert the given row
(with `patientId` supplied by the caller — the storage layer does not
generate it), then synchronously create the `initial_record` history
entry with `recordedBy := createdBy` (the `weight`/`height` values passed
by the source are dropped by the `health_history` schema). -/
def DB.createPatient (db : DB) (patientId : String) (ins : InsertPatient)
    (createdBy : Nat) (now : Nat) : Patient × DB :=
  let p : Patient :=
    { id := db.nextPatientId
      patientId := patientId
      name := ins.name
      age := ins.age
      phone := ins.phone
      bloodSugar := ins.bloodSugar
      bloodPressureSystolic := ins.bloodPressureSystolic
      bloodPressureDiastolic := ins.bloodPressureDiastolic
      weight := ins.weight
      height := ins.height
      medicalHistory := ins.medicalHistory
      createdAt := now
      updatedAt := now
      createdBy := createdBy
      isActive := true }
  let db1 : DB :=
    { db with patients := db.patients ++ [p]
              nextPatientId := db.nextPatientId + 1 }
  let r := db1.createHealthHistory
    { patientId := p.id
      recordedBy := createdBy
      bloodSugar := some ins.bloodSugar
      bloodPressureSystolic := some ins.bloodPressureSystolic
      bloodPressureDiastolic := some ins.bloodPressureDiastolic
      changeType := "initial_record"
      notes := some "Initial patient record" } now
  (p, r.2)

/-- Shallow merge `{ ...existing, ...updates }` as performed by
`db.update(patients).set(patient)`: provided fields overwrite the row
(note the `DatabaseStorage` path does not re-stamp `updatedAt`). -/
def applyUpdate (p : Patient) (u : PatientUpdate) : Patient :=
  { p with
    name := u.name.getD p.name
    age := u.age.getD p.age
    phone := u.phone.getD p.phone
    bloodSugar := u.bloodSugar.getD p.bloodSugar
    bloodPressureSystolic := u.bloodPressureSystolic.getD p.bloodPressureSystolic
    bloodPressureDiastolic := u.bloodPressureDiastolic.getD p.bloodPressureDiastolic
    weight := match u.weight with | some v => some v | none => p.weight
    height := match u.height with | some v => some v | none => p.height
    medicalHistory := u.medicalHistory.getD p.medicalHistory }

/-- The history guard of `DatabaseStorage.updatePatient`:
`patient.bloodPressureSystolic || patient.bloodPressureDiastolic ||
patient.bloodSugar || patient.weight || patient.height` — JavaScript
truthiness of the provided fields, not presence. -/
def hasTruthyVitals (u : PatientUpdate) : Bool :=
  truthy u.bloodPressureSystolic || truthy u.bloodPressureDiastolic ||
  truthy u.bloodSugar || truthy u.weight || truthy u.height

/-- Embedding of `DatabaseStorage.updatePatient`: look up the row
(returning `none` if absent), apply the shallow merge, and, when any
provided vitals field is truthy, append a `manual_edit` history entry
whose snapshot takes each provided-or-prior value via `||` and whose
`recordedBy` is the hard-coded `1` (the source carries a
`TODO: Get from current user context` at that line; the extra
`recordedBy` argument passed by the route handler is not a parameter of
this method and is ignored). -/
def DB.updatePatient (db : DB) (id : Nat) (u : PatientUpdate) (now : Nat) :
    Option Patient × DB :=
  match db.getPatient id with
  | none => (none, db)
  | some existing =>
    let merged := applyUpdate existing u
    let db1 : DB :=
      { db with patients := db.patients.map (fun q => if q.id = id then merged else q) }
    let db2 : DB :=
      if hasTruthyVitals u then
        (db1.createHealthHistory
          { patientId := id
            recordedBy := 1
            bloodSugar := some (jsOr u.bloodSugar existing.bloodSugar)
            bloodPressureSystolic :=
              some (jsOr u.bloodPressureSystolic existing.bloodPressureSystolic)
            bloodPressureDiastolic :=
              some (jsOr u.bloodPressureDiastolic existing.bloodPressureDiastolic)
            changeType := "manual_edit"
            notes := some "Patient record updated" } now).2
      else db1
    (some merged, db2)

/-- Embedding of `DatabaseStorage.deletePatient`: first delete the
patient's `health_history` rows, then delete the patient row and report
whether one was removed.  The two deletes are separate statements with
no enclosing transaction; `secondFails` models the second statement
rejecting (the `catch` block rethrows), in which case the first delete
has already taken effect. -/
def DB.deletePatient (db : DB) (id : Nat) (secondFails : Bool) :
    Except Unit Bool × DB :=
  let db1 : DB :=
    { db with healthHistory := db.healthHistory.filter (fun h => h.patientId ≠ id) }
  if secondFails then (.error (), db1)
  else
    let deleted := db1.patients.filter (fun p => p.id = id)
    let db2 : DB := { db1 with patients := db1.patients.filter (fun p => p.id ≠ id) }
    (.ok (deleted.length > 0), db2)

/-- Embedding of `DatabaseStorage.getHealthHistoryByPatient`:
`select ... where patientId = _` with the `orderBy(desc(timestamp))`
line commented out in the source, so rows come back in table
(insertion) order. -/
def DB.getHealthHistoryByPatient (db : DB) (patientId : Nat) : List HealthHistory :=
  db.healthHistory.filter (fun h => h.patientId = patientId)

/-- Fuel-indexed decimal rendering of a natural number, big-endian, used
to model the JavaScript `String(n)` conversion (and `Date.now()`
interpolation).  The fuel argument makes the recursion structural;
`natChars` below supplies sufficient fuel. -/
def natCharsAux : Nat → Nat → List Char
  | 0, _ => []
  | fuel + 1, n =>
    if n < 10 then [Nat.digitChar n]
    else natCharsAux fuel (n / 10) ++ [Nat.digitChar (n % 10)]

/-- Decimal digit characters of `n`, modelling JavaScript `String(n)`. -/
def natChars (n : Nat) : List Char := natCharsAux (n + 1) n

/-- Decimal value of a digit string (the proof-side inverse of
`natChars`). -/
def decVal (cs : List Char) : Nat :=
  cs.foldl (fun a c => 10 * a + (c.toNat - 48)) 0

theorem decVal_append_singleton (l : List Char) (c : Char) :
    decVal (l ++ [c]) = 10 * decVal l + (c.toNat - 48) := by
  simp [decVal, List.foldl_append]

theorem digitChar_toNat (n : Nat) (h : n < 10) :
    (Nat.digitChar n).toNat = 48 + n := by
  interval_cases n <;> rfl

theorem digitChar_isDigit (n : Nat) (h : n < 10) :
    (Nat.digitChar n).isDigit = true := by
  interval_cases n <;> rfl

theorem decVal_natCharsAux :
    ∀ fuel n, n < fuel → decVal (natCharsAux fuel n) = n := by
  intro fuel
  induction fuel with
  | zero => intro n h; omega
  | succ f ih =>
    intro n h
    by_cases h10 : n < 10
    · simp [natCharsAux, h10, decVal, digitChar_toNat n h10]
    · have hdiv : n / 10 < n := Nat.div_lt_self (by omega) (by omega)
      have hf : n / 10 < f := by omega
      have hm : n % 10 < 10 := Nat.mod_lt _ (by omega)
      simp only [natCharsAux, if_neg h10, decVal_append_singleton, ih _ hf,
        digitChar_toNat _ hm]
      omega

theorem decVal_natChars (n : Nat) : decVal (natChars n) = n :=
  decVal_natCharsAux (n + 1) n (Nat.lt_succ_self n)

theorem natChars_injective {a b : Nat} (h : natChars a = natChars b) : a = b := by
  have := congrArg decVal h
  rwa [decVal_natChars, decVal_natChars] at this

theorem natCharsAux_all_digit :
    ∀ fuel n, n < fuel → ∀ c ∈ natCharsAux fuel n, c.isDigit = true := by
  intro fuel
  induction fuel with
  | zero => intro n h; omega
  | succ f ih =>
    intro n h c hc
    by_cases h10 : n < 10
    · simp only [natCharsAux, if_pos h10, List.mem_singleton] at hc
      subst hc; exact digitChar_isDigit n h10
    · have hdiv : n / 10 < n := Nat.div_lt_self (by omega) (by omega)
      have hf : n / 10 < f := by omega
      have hm : n % 10 < 10 := Nat.mod_lt _ (by omega)
      simp only [natCharsAux, if_neg h10, List.mem_append, List.mem_singleton] at hc
      rcases hc with hc | hc
      · exact ih _ hf c hc
      · subst hc; exact digitChar_isDigit _ hm

theorem natChars_all_digit (n : Nat) : ∀ c ∈ natChars n, c.isDigit = true :=
  natCharsAux_all_digit (n + 1) n (Nat.lt_succ_self n)

theorem natCharsAux_length_le :
    ∀ fuel n k, n < fuel → n < 10 ^ k → 1 ≤ k → (natCharsAux fuel n).length ≤ k := by
  intro fuel
  induction fuel with
  | zero => intro n k h; omega
  | succ f ih =>
    intro n k h hk h1
    by_cases h10 : n < 10
    · simp only [natCharsAux, if_pos h10, List.length_singleton]; omega
    · have hdiv : n / 10 < n := Nat.div_lt_self (by omega) (by omega)
      have hf : n / 10 < f := by omega
      have hk2 : 2 ≤ k := by
        by_contra hcon
        have : k = 1 := by omega
        subst this
        simp at hk
        omega
      have hpow : n / 10 < 10 ^ (k - 1) := by
        have : n < 10 * 10 ^ (k - 1) := by
          have : 10 ^ k = 10 * 10 ^ (k - 1) := by
            conv_lhs => rw [show k = 1 + (k - 1) by omega]
            rw [pow_add, pow_one]
          omega
        omega
      have := ih (n / 10) (k - 1) hf hpow (by omega)
      simp only [natCharsAux, if_neg h10, List.length_append, List.length_singleton]
      omega

theorem natChars_length_le_three (n : Nat) (h : n ≤ 999) :
    (natChars n).length ≤ 3 :=
  natCharsAux_length_le (n + 1) n 3 (Nat.lt_succ_self n) (by omega) (by omega)

/-- Left-pad a digit string with `'0'` to length 3, modelling the
JavaScript `padStart(3, '0')` call (a no-op for strings of length 3 or
more). -/
def padStart3 (l : List Char) : List Char :=
  List.replicate (3 - l.length) '0' ++ l

theorem decVal_replicate_zero (k : Nat) (l : List Char) :
    decVal (List.replicate k '0' ++ l) = decVal l := by
  induction k with
  | zero => simp
  | succ m ih =>
    have : List.replicate (m + 1) '0' ++ l = '0' :: (List.replicate m '0' ++ l) := by
      simp [List.replicate_succ]
    rw [this]
    simpa [decVal] using ih

theorem decVal_padStart3 (l : List Char) : decVal (padStart3 l) = decVal l :=
  decVal_replicate_zero _ l

/-- The patient-id string generated by `MemStorage.createPatient`:
`` `PT-2024-${String(counter).padStart(3, '0')}` `` (character list). -/
def memGenChars (n : Nat) : List Char :=
  'P' :: 'T' :: '-' :: '2' :: '0' :: '2' :: '4' :: '-' :: padStart3 (natChars n)

/-- The patient-id string generated by `MemStorage.createPatient`. -/
def memGenPatientId (n : Nat) : String := ⟨memGenChars n⟩

/-- The patient-id string passed by the `POST /api/patients` handler:
`` `PT-${Date.now()}` `` (character list), where `t` is the epoch-millisecond
clock reading. -/
def routePatientIdChars (t : Nat) : List Char := 'P' :: 'T' :: '-' :: natChars t

/-- The patient-id string passed by the `POST /api/patients` handler. -/
def routePatientId (t : Nat) : String := ⟨routePatientIdChars t⟩

/-- Decider for the spec's id format regex `PT-\d{4}-\d{3}`:
length 11, prefix `PT-`, four digits, a dash, three digits. -/
def isPTfmt (cs : List Char) : Bool :=
  (cs.length == 11) && (cs.take 3 == ['P', 'T', '-']) &&
  ((cs.drop 3).take 4).all Char.isDigit &&
  ((cs.drop 7).take 1 == ['-']) &&
  ((cs.drop 8).all Char.isDigit)

/-- String-level decider for the regex `PT-\d{4}-\d{3}`. -/
def isPTformat (s : String) : Bool := isPTfmt s.data

/-- The aggregate returned by `getPatientStats` in both storage
implementations. -/
structure PatientStats where
  totalPatients : Nat
  newAdmissions : Nat
  criticalCases : Nat
  aiPredictions : Nat
deriving DecidableEq, Repr

/-- One day in milliseconds. -/
def dayMs : Nat := 86400000

/-- Start of the current day, modelling `today.setHours(0, 0, 0, 0)` on
an epoch-millisecond clock (the timezone offset is elided; none of the
claims depend on which fixed offset is used). -/
def startOfDay (now : Nat) : Nat := now - now % dayMs

/-- Insert a patient into a list sorted by `createdAt` descending
(used to model the SQL `orderBy(desc(createdAt))`). -/
def insertByCreatedDesc (p : Patient) : List Patient → List Patient
  | [] => [p]
  | x :: xs =>
    if x.createdAt < p.createdAt then p :: x :: xs else x :: insertByCreatedDesc p xs

/-- Sort patients by `createdAt` descending. -/
def sortByCreatedDesc (l : List Patient) : List Patient :=
  l.foldl (fun acc p => insertByCreatedDesc p acc) []

/-- Embedding of `DatabaseStorage.getAllPatients`: all rows ordered by
`createdAt` descending. -/
def DB.getAllPatients (db : DB) : List Patient := sortByCreatedDesc db.patients

/-- Embedding of `DatabaseStorage.getPatientStats`: four `count()`
queries — all patients; patients with `createdAt >= today` (midnight);
all predictions; and patients with
`bloodPressureSystolic >= 140 OR bloodSugar >= 200` (inclusive `gte`,
no diastolic condition). -/
def DB.getPatientStats (db : DB) (now : Nat) : PatientStats :=
  { totalPatients := db.patients.length
    newAdmissions := db.patients.countP (fun p => startOfDay now ≤ p.createdAt)
    criticalCases := db.patients.countP
      (fun p => 140 ≤ p.bloodPressureSystolic ∨ 200 ≤ p.bloodSugar)
    aiPredictions := db.healthPredictions.length }

/-- The in-memory store backing `MemStorage`: the JS `Map`s in insertion
order plus the id counters (tables not touched by the claimed
operations are omitted). -/
structure MemState where
  patients : List Patient
  healthHistories : List HealthHistory
  healthPredictions : List Nat
  currentPatientId : Nat
  currentHealthHistoryId : Nat
  patientIdCounter : Nat
deriving DecidableEq, Repr

/-- JavaScript truthiness of a possibly-absent integer id. -/
def truthyNat : Option Nat → Bool
  | some n => n ≠ 0
  | none => false

/-- Embedding of `MemStorage.getPatient`: `Map.get` by id. -/
def MemState.getPatient (st : MemState) (id : Nat) : Option Patient :=
  st.patients.find? (fun p => p.id = id)

/-- Embedding of `MemStorage.createHealthHistory`: assign the next id,
stamp the current time, store the entry. -/
def MemState.createHealthHistory (st : MemState) (ins : InsertHealthHistory)
    (now : Nat) : HealthHistory × MemState :=
  let e : HealthHistory :=
    { id := st.currentHealthHistoryId
      patientId := ins.patientId
      recordedBy := ins.recordedBy
      bloodSugar := ins.bloodSugar
      bloodPressureSystolic := ins.bloodPressureSystolic
      bloodPressureDiastolic := ins.bloodPressureDiastolic
      changeType := ins.changeType
      notes := ins.notes
      timestamp := now }
  (e, { st with healthHistories := st.healthHistories ++ [e]
                currentHealthHistoryId := st.currentHealthHistoryId + 1 })

/-- Embedding of `MemStorage.createPatient`: assign the next numeric id
and the generated `PT-2024-NNN` patient id, stamp the timestamps, store
the row.  Unlike `DatabaseStorage.createPatient`, no history entry is
created. -/
def MemState.createPatient (st : MemState) (ins : InsertPatient)
    (createdBy : Nat) (now : Nat) : Patient × MemState :=
  let p : Patient :=
    { id := st.currentPatientId
      patientId := memGenPatientId st.patientIdCounter
      name := ins.name
      age := ins.age
      phone := ins.phone
      bloodSugar := ins.bloodSugar
      bloodPressureSystolic := ins.bloodPressureSystolic
      bloodPressureDiastolic := ins.bloodPressureDiastolic
      weight := ins.weight
      height := ins.height
      medicalHistory := ins.medicalHistory
      createdAt := now
      updatedAt := now
      createdBy := createdBy
      isActive := true }
  (p, { st with patients := st.patients ++ [p]
                currentPatientId := st.currentPatientId + 1
                patientIdCounter := st.patientIdCounter + 1 })

/-- Embedding of `MemStorage.updatePatient(id, updates, recordedBy?)`:
shallow merge plus an `updatedAt` stamp; a `manual_edit` history entry
is appended only when `recordedBy` is truthy and at least one of the
provided `bloodSugar`/`bloodPressureSystolic`/`bloodPressureDiastolic`
is truthy (`weight`/`height` do not trigger history here), with the
snapshot values taken via `||` against the prior row. -/
def MemState.updatePatient (st : MemState) (id : Nat) (u : PatientUpdate)
    (recordedBy : Option Nat) (now : Nat) : Option Patient × MemState :=
  match st.getPatient id with
  | none => (none, st)
  | some patient =>
    let merged := { applyUpdate patient u with updatedAt := now }
    let st1 : MemState :=
      { st with patients := st.patients.map (fun q => if q.id = id then merged else q) }
    let st2 : MemState :=
      if truthyNat recordedBy &&
          (truthy u.bloodSugar || truthy u.bloodPressureSystolic ||
           truthy u.bloodPressureDiastolic) then
        (st1.createHealthHistory
          { patientId := id
            recordedBy := recordedBy.getD 0
            bloodSugar := some (jsOr u.bloodSugar patient.bloodSugar)
            bloodPressureSystolic :=
              some (jsOr u.bloodPressureSystolic patient.bloodPressureSystolic)
            bloodPressureDiastolic :=
              some (jsOr u.bloodPressureDiastolic patient.bloodPressureDiastolic)
            changeType := "manual_edit"
            notes := some "Patient record updated by staff" } now).2
      else st1
    (some merged, st2)

/-- Insert a history entry into a list sorted by `timestamp` descending,
placing it after entries with an equal timestamp (matching the stability
of the JS `sort((a, b) => b.timestamp - a.timestamp)`). -/
def insertByTsDesc (e : HealthHistory) : List HealthHistory → List HealthHistory
  | [] => [e]
  | x :: xs =>
    if x.timestamp < e.timestamp then e :: x :: xs else x :: insertByTsDesc e xs

/-- Stable sort of history entries by `timestamp` descending. -/
def sortByTsDesc (l : List HealthHistory) : List HealthHistory :=
  l.foldl (fun acc e => insertByTsDesc e acc) []

/-- Embedding of `MemStorage.getHealthHistoryByPatient`: filter by
patient, then sort newest-first. -/
def MemState.getHealthHistoryByPatient (st : MemState) (patientId : Nat) :
    List HealthHistory :=
  sortByTsDesc (st.healthHistories.filter (fun h => h.patientId = patientId))

/-- Embedding of `MemStorage.getAllPatients`: values in insertion order. -/
def MemState.getAllPatients (st : MemState) : List Patient := st.patients

/-- Embedding of `MemStorage.getPatientStats`: size of the patient map;
patients with `createdAt > now - 24h` (a trailing 24-hour window, not
midnight); patients with
`bloodPressureSystolic > 140 || bloodSugar > 200` (strict, no diastolic
condition); size of the prediction map. -/
def MemState.getPatientStats (st : MemState) (now : Nat) : PatientStats :=
  { totalPatients := st.patients.length
    newAdmissions := st.patients.countP
      (fun p => (now : Int) - (dayMs : Int) < (p.createdAt : Int))
    criticalCases := st.patients.countP
      (fun p => 140 < p.bloodPressureSystolic ∨ 200 < p.bloodSugar)
    aiPredictions := st.healthPredictions.length }

/-- Entries are in `timestamp`-descending (newest-first) order. -/
def TsSortedDesc (l : List HealthHistory) : Prop :=
  List.Pairwise (fun a b => b.timestamp ≤ a.timestamp) l

/-- Embedding of the `POST /api/patients` handler body: parse the
payload, then call `storage.createPatient` (the live `storage` is a
`DatabaseStorage`) with `patientId` interpolated from `Date.now()` and
`createdBy` from the session user. -/
def routeCreatePatient (db : DB) (ins : InsertPatient) (userId : Nat)
    (now : Nat) : Patient × DB :=
  db.createPatient (routePatientId now) ins userId now

/-- Embedding of the `PUT /api/patients/:id` handler body: it calls
`storage.updatePatient(id, updates, req.user.id)`, but the live
`DatabaseStorage.updatePatient` declares only two parameters, so the
authenticated user id is ignored. -/
def routeUpdatePatient (db : DB) (id : Nat) (u : PatientUpdate)
    (userId : Nat) (now : Nat) : Option Patient × DB :=
  db.updatePatient id u now

/-- Presence (not truthiness) of at least one vitals field in an update
payload — the reading used by the spec sentence under test, for
comparison with the code's truthiness guard `hasTruthyVitals`. -/
def includesVitalsField (u : PatientUpdate) : Bool :=
  u.bloodSugar.isSome || u.bloodPressureSystolic.isSome ||
  u.bloodPressureDiastolic.isSome || u.weight.isSome || u.height.isSome

/-- Every vitals field provided in the payload is falsy (absent fields
are vacuously so). -/
def allProvidedVitalsFalsy (u : PatientUpdate) : Bool :=
  u.bloodSugar.all (fun v => v == 0) &&
  u.bloodPressureSystolic.all (fun v => v == 0) &&
  u.bloodPressureDiastolic.all (fun v => v == 0) &&
  u.weight.all (fun v => v == 0) &&
  u.height.all (fun v => v == 0)

theorem allFalsy_not_truthy {u : PatientUpdate}
    (h : allProvidedVitalsFalsy u = true) : hasTruthyVitals u = false := by
  unfold allProvidedVitalsFalsy at h
  unfold hasTruthyVitals truthy
  cases hbs : u.bloodSugar <;> cases hsy : u.bloodPressureSystolic <;>
    cases hdi : u.bloodPressureDiastolic <;> cases hw : u.weight <;>
    cases hh : u.height <;> simp_all

theorem length_insertByCreatedDesc (p : Patient) (l : List Patient) :
    (insertByCreatedDesc p l).length = l.length + 1 := by
  induction l with
  | nil => rfl
  | cons x xs ih =>
    simp only [insertByCreatedDesc]
    split_ifs <;> simp [ih]

theorem length_sortByCreatedDesc (l : List Patient) :
    (sortByCreatedDesc l).length = l.length := by
  suffices h : ∀ acc : List Patient,
      (l.foldl (fun acc p => insertByCreatedDesc p acc) acc).length
        = acc.length + l.length by
    simpa using h []
  induction l with
  | nil => intro acc; simp
  | cons x xs ih =>
    intro acc
    simp only [List.foldl_cons]
    rw [ih, length_insertByCreatedDesc]
    simp only [List.length_cons]
    omega

/-- Sample validated patient payload. -/
def sampleIns : InsertPatient :=
  { name := "Test User", age := 40, phone := "555", bloodSugar := 95
    bloodPressureSystolic := 118, bloodPressureDiastolic := 76
    weight := none, height := none, medicalHistory := "none" }

/-- An empty relational store. -/
def emptyDB : DB :=
  { patients := [], healthHistory := [], healthPredictions := []
    nextPatientId := 1, nextHistoryId := 1 }

/-- A sample stored patient row (id 1, created by user 7). -/
def samplePatient : Patient :=
  { id := 1, patientId := "PT-1", name := "John", age := 45, phone := "555"
    bloodSugar := 120, bloodPressureSystolic := 130
    bloodPressureDiastolic := 85, weight := none, height := none
    medicalHistory := "h", createdAt := 0, updatedAt := 0, createdBy := 7
    isActive := true }

/-- A store holding just `samplePatient` and no history. -/
def db5 : DB :=
  { patients := [samplePatient], healthHistory := [], healthPredictions := []
    nextPatientId := 2, nextHistoryId := 1 }

/-- An update payload that provides `bloodSugar` explicitly set to `0`. -/
def u0 : PatientUpdate := { bloodSugar := some 0 }

/-- An update payload that sets `bloodSugar` to `150`. -/
def u5 : PatientUpdate := { bloodSugar := some 150 }

/-- An older history entry for patient 1 (timestamp 100). -/
def e1 : HealthHistory :=
  { id := 1, patientId := 1, recordedBy := 7, bloodSugar := some 100
    bloodPressureSystolic := some 120, bloodPressureDiastolic := some 80
    changeType := "routine_checkup", notes := none, timestamp := 100 }

/-- A newer history entry for patient 1 (timestamp 200), inserted after
`e1`. -/
def e2 : HealthHistory :=
  { id := 2, patientId := 1, recordedBy := 7, bloodSugar := some 110
    bloodPressureSystolic := some 125, bloodPressureDiastolic := some 82
    changeType := "manual_edit", notes := none, timestamp := 200 }

/-- A store whose history holds `e1` then `e2` (insertion order =
oldest first). -/
def db6 : DB :=
  { patients := [samplePatient], healthHistory := [e1, e2]
    healthPredictions := [], nextPatientId := 2, nextHistoryId := 3 }

/-- The in-memory store with the same two history entries. -/
def st6 : MemState :=
  { patients := [samplePatient], healthHistories := [e1, e2]
    healthPredictions := [], currentPatientId := 2
    currentHealthHistoryId := 3, patientIdCounter := 2 }

/-- A store holding `samplePatient` together with one history row. -/
def db4 : DB :=
  { patients := [samplePatient], healthHistory := [e1]
    healthPredictions := [], nextPatientId := 2, nextHistoryId := 2 }

/-- A store whose sole patient is critical by diastolic pressure only
(systolic 100, diastolic 95, sugar 100). -/
def db3 : DB :=
  { patients := [{ samplePatient with
                   bloodPressureSystolic := 100,
                   bloodPressureDiastolic := 95,
                   bloodSugar := 100 }]
    healthHistory := [], healthPredictions := []
    nextPatientId := 2, nextHistoryId := 1 }

end EHR

/-- C2: for every triple (systolic, diastolic, sugar), the derived vitals
status is Critical iff `systolic > 140 ∨ diastolic > 90 ∨ sugar > 200`;
otherwise Warning iff `systolic > 120 ∨ diastolic > 80 ∨ sugar > 140`;
otherwise Normal — exactly this precedence order. -/
theorem EHR.C2_vital_status_ladder (s d g : ℚ) :
    (EHR.getVitalStatus s d g = .Critical ↔ (s > 140 ∨ d > 90 ∨ g > 200)) ∧
    (EHR.getVitalStatus s d g = .Warning ↔
      (¬(s > 140 ∨ d > 90 ∨ g > 200) ∧ (s > 120 ∨ d > 80 ∨ g > 140))) ∧
    (EHR.getVitalStatus s d g = .Normal ↔
      (¬(s > 140 ∨ d > 90 ∨ g > 200) ∧ ¬(s > 120 ∨ d > 80 ∨ g > 140))) := by
  unfold EHR.getVitalStatus
  split_ifs with h1 h2 <;> simp_all

/-- C1 counterexample: an update whose payload includes a vitals field
(`bloodSugar` provided, explicitly `0`) does not increase the patient's
history-entry count — the guard is truthiness, not presence. -/
theorem EHR.C1_counterexample :
    EHR.includesVitalsField EHR.u0 = true ∧
    (EHR.DB.getPatient EHR.db5 1).isSome = true ∧
    ((EHR.DB.updatePatient EHR.db5 1 EHR.u0 9).2.getHealthHistoryByPatient 1).length
      = (EHR.DB.getHealthHistoryByPatient EHR.db5 1).length := by
  decide

/-- C5: evaluating the code at the failing input — user 2 performs a
vitals update through the `PUT /api/patients/:id` handler, but the
recorded history entry carries `recordedBy = 1` (hard-coded, with a
`TODO` in the source); on the create path the creator is recorded
correctly. -/
theorem EHR.C5_update_recordedBy_hardcoded :
    ((EHR.DB.createPatient EHR.emptyDB "PT-1" EHR.sampleIns 7 5).2.healthHistory.map
        (fun h => h.recordedBy) = [7]) ∧
    ((EHR.routeUpdatePatient EHR.db5 1 EHR.u5 2 9).2.healthHistory.map
        (fun h => h.recordedBy) = [1]) ∧
    (2 : Nat) ≠ 1 := by
  decide

/-- C6: evaluating the code at the failing input — with two history
entries inserted oldest-first, the live `DatabaseStorage` query returns
them in insertion order (oldest first, since its `orderBy` is commented
out), while the `MemStorage` implementation returns them newest-first. -/
theorem EHR.C6_history_order_bug :
    EHR.DB.getHealthHistoryByPatient EHR.db6 1 = [EHR.e1, EHR.e2] ∧
    EHR.e1.timestamp < EHR.e2.timestamp ∧
    EHR.MemState.getHealthHistoryByPatient EHR.st6 1 = [EHR.e2, EHR.e1] := by
  decide

theorem filter_patientId_fresh {db : EHR.DB}
    (hfresh : ∀ h ∈ db.healthHistory, h.patientId ≠ db.nextPatientId) :
    db.healthHistory.filter (fun h => h.patientId = db.nextPatientId) = [] := by
  rw [List.filter_eq_nil_iff]
  intro h hh
  simpa using hfresh h hh

/-- C1 amended: immediately after `DatabaseStorage.createPatient` on a
store whose history has no rows under the fresh id, the new patient has
exactly one history entry, of change type `initial_record`; a subsequent
`updatePatient` whose payload provides at least one truthy (non-zero)
vitals field appends exactly one `manual_edit` entry for that patient,
while an update providing no truthy vitals field leaves the patient's
history unchanged. -/
theorem EHR.C1_amended_vitals_history_growth :
    (∀ (db : EHR.DB) pid ins cb now,
      (∀ h ∈ db.healthHistory, h.patientId ≠ db.nextPatientId) →
      ((EHR.DB.createPatient db pid ins cb now).2.getHealthHistoryByPatient
          (EHR.DB.createPatient db pid ins cb now).1.id).length = 1 ∧
      ∀ h ∈ (EHR.DB.createPatient db pid ins cb now).2.getHealthHistoryByPatient
          (EHR.DB.createPatient db pid ins cb now).1.id,
        h.changeType = "initial_record") ∧
    (∀ (db : EHR.DB) id u now p,
      EHR.DB.getPatient db id = some p → EHR.hasTruthyVitals u = true →
      ∃ e, (EHR.DB.updatePatient db id u now).2.getHealthHistoryByPatient id
            = EHR.DB.getHealthHistoryByPatient db id ++ [e] ∧
          e.changeType = "manual_edit" ∧
          ((EHR.DB.updatePatient db id u now).2.getHealthHistoryByPatient id).length
            = (EHR.DB.getHealthHistoryByPatient db id).length + 1) ∧
    (∀ (db : EHR.DB) id u now, EHR.hasTruthyVitals u = false →
      (EHR.DB.updatePatient db id u now).2.getHealthHistoryByPatient id
        = EHR.DB.getHealthHistoryByPatient db id) := by
  refine ⟨?_, ?_, ?_⟩
  · intro db pid ins cb now hfresh
    have hnil := filter_patientId_fresh hfresh
    constructor
    · simp [EHR.DB.createPatient, EHR.DB.createHealthHistory,
        EHR.DB.getHealthHistoryByPatient, List.filter_append, hnil]
    · intro h hh
      simp [EHR.DB.createPatient, EHR.DB.createHealthHistory,
        EHR.DB.getHealthHistoryByPatient, List.filter_append, hnil] at hh
      simp [hh]
  · intro db id u now p hp hguard
    refine ⟨{ id := db.nextHistoryId,
              patientId := id,
              recordedBy := 1,
              bloodSugar := some (EHR.jsOr u.bloodSugar p.bloodSugar),
              bloodPressureSystolic :=
                some (EHR.jsOr u.bloodPressureSystolic p.bloodPressureSystolic),
              bloodPressureDiastolic :=
                some (EHR.jsOr u.bloodPressureDiastolic p.bloodPressureDiastolic),
              changeType := "manual_edit",
              notes := some "Patient record updated",
              timestamp := now }, ?_, rfl, ?_⟩
    · simp [EHR.DB.updatePatient, hp, hguard, EHR.DB.createHealthHistory,
        EHR.DB.getHealthHistoryByPatient, List.filter_append]
    · simp [EHR.DB.updatePatient, hp, hguard, EHR.DB.createHealthHistory,
        EHR.DB.getHealthHistoryByPatient, List.filter_append]
  · intro db id u now hguard
    cases hp : EHR.DB.getPatient db id with
    | none => simp [EHR.DB.updatePatient, hp]
    | some p => simp [EHR.DB.updatePatient, hp, hguard,
        EHR.DB.getHealthHistoryByPatient]

/-- C1 witness: the truthy-vitals update branch of the amended claim
instantiated on a concrete store. -/
theorem EHR.C1_witness :
    (EHR.DB.getPatient EHR.db5 1 = some EHR.samplePatient ∧
      EHR.hasTruthyVitals EHR.u5 = true) ∧
    ∃ e, (EHR.DB.updatePatient EHR.db5 1 EHR.u5 9).2.getHealthHistoryByPatient 1
          = EHR.DB.getHealthHistoryByPatient EHR.db5 1 ++ [e] ∧
        e.changeType = "manual_edit" ∧
        ((EHR.DB.updatePatient EHR.db5 1 EHR.u5 9).2.getHealthHistoryByPatient 1).length
          = (EHR.DB.getHealthHistoryByPatient EHR.db5 1).length + 1 :=
  ⟨⟨by decide, by decide⟩,
    EHR.C1_amended_vitals_history_growth.2.1 EHR.db5 1 EHR.u5 9 EHR.samplePatient
      (by decide) (by decide)⟩

theorem allFalsy_components {u : EHR.PatientUpdate}
    (h : EHR.allProvidedVitalsFalsy u = true) :
    EHR.truthy u.bloodSugar = false ∧ EHR.truthy u.bloodPressureSystolic = false ∧
    EHR.truthy u.bloodPressureDiastolic = false ∧ EHR.truthy u.weight = false ∧
    EHR.truthy u.height = false := by
  unfold EHR.allProvidedVitalsFalsy at h
  unfold EHR.truthy
  cases hbs : u.bloodSugar <;> cases hsy : u.bloodPressureSystolic <;>
    cases hdi : u.bloodPressureDiastolic <;> cases hw : u.weight <;>
    cases hh : u.height <;> simp_all

/-- C10: the history decision is JavaScript truthiness, not presence —
in both storage implementations an update all of whose provided vitals
fields are falsy appends no history entry; and when an entry is
appended, a `bloodSugar` explicitly updated to `0` is recorded in the
snapshot as the patient's prior value (via `||`) even though the patient
row itself is updated to `0`. -/
theorem EHR.C10_truthiness_semantics :
    (∀ (db : EHR.DB) id u now, EHR.allProvidedVitalsFalsy u = true →
      (EHR.DB.updatePatient db id u now).2.healthHistory = db.healthHistory) ∧
    (∀ (st : EHR.MemState) id u rb now, EHR.allProvidedVitalsFalsy u = true →
      (EHR.MemState.updatePatient st id u rb now).2.healthHistories
        = st.healthHistories) ∧
    (∀ (db : EHR.DB) id u now p, EHR.DB.getPatient db id = some p →
      EHR.hasTruthyVitals u = true → u.bloodSugar = some 0 →
      ∃ e, (EHR.DB.updatePatient db id u now).2.healthHistory
            = db.healthHistory ++ [e] ∧
          e.bloodSugar = some p.bloodSugar ∧
          (EHR.DB.updatePatient db id u now).1 = some (EHR.applyUpdate p u) ∧
          (EHR.applyUpdate p u).bloodSugar = 0) := by
  refine ⟨?_, ?_, ?_⟩
  · intro db id u now hfalsy
    have htr := EHR.allFalsy_not_truthy hfalsy
    cases hp : EHR.DB.getPatient db id with
    | none => simp [EHR.DB.updatePatient, hp]
    | some p => simp [EHR.DB.updatePatient, hp, htr]
  · intro st id u rb now hfalsy
    obtain ⟨h1, h2, h3, _, _⟩ := allFalsy_components hfalsy
    cases hp : EHR.MemState.getPatient st id with
    | none => simp [EHR.MemState.updatePatient, hp]
    | some p => simp [EHR.MemState.updatePatient, hp, h1, h2, h3]
  · intro db id u now p hp hguard h0
    refine ⟨{ id := db.nextHistoryId,
              patientId := id,
              recordedBy := 1,
              bloodSugar := some (EHR.jsOr u.bloodSugar p.bloodSugar),
              bloodPressureSystolic :=
                some (EHR.jsOr u.bloodPressureSystolic p.bloodPressureSystolic),
              bloodPressureDiastolic :=
                some (EHR.jsOr u.bloodPressureDiastolic p.bloodPressureDiastolic),
              changeType := "manual_edit",
              notes := some "Patient record updated",
              timestamp := now }, ?_, ?_, ?_, ?_⟩
    · simp [EHR.DB.updatePatient, hp, hguard, EHR.DB.createHealthHistory]
    · simp [h0, EHR.jsOr]
    · simp [EHR.DB.updatePatient, hp, hguard]
    · simp [EHR.applyUpdate, h0]

/-- C10 witness: an update providing `bloodSugar = 0` and a truthy
`weight` on a concrete store — the entry is appended (weight is truthy)
and its snapshot records the prior blood sugar. -/
theorem EHR.C10_witness :
    (EHR.DB.getPatient EHR.db5 1 = some EHR.samplePatient ∧
      EHR.hasTruthyVitals { bloodSugar := some 0, weight := some 70 } = true ∧
      ({ bloodSugar := some 0, weight := some 70 } : EHR.PatientUpdate).bloodSugar
        = some 0) ∧
    ∃ e, (EHR.DB.updatePatient EHR.db5 1
            { bloodSugar := some 0, weight := some 70 } 9).2.healthHistory
          = EHR.db5.healthHistory ++ [e] ∧
        e.bloodSugar = some EHR.samplePatient.bloodSugar ∧
        (EHR.DB.updatePatient EHR.db5 1
            { bloodSugar := some 0, weight := some 70 } 9).1
          = some (EHR.applyUpdate EHR.samplePatient
              { bloodSugar := some 0, weight := some 70 }) ∧
        (EHR.applyUpdate EHR.samplePatient
            { bloodSugar := some 0, weight := some 70 }).bloodSugar = 0 :=
  ⟨⟨by decide, by decide, by decide⟩,
    EHR.C10_truthiness_semantics.2.2 EHR.db5 1
      { bloodSugar := some 0, weight := some 70 } 9 EHR.samplePatient
      (by decide) (by decide) (by decide)⟩

/-- C3 counterexample: a patient with systolic 100, diastolic 95, sugar
100 is Critical under the §4.3 ladder (diastolic > 90), yet the live
`getPatientStats` counts zero critical cases — its query ignores
diastolic pressure (and uses inclusive thresholds). -/
theorem EHR.C3_counterexample :
    (EHR.DB.getPatientStats EHR.db3 90000000).criticalCases = 0 ∧
    (EHR.db3.patients.countP (fun p =>
      EHR.getVitalStatus p.bloodPressureSystolic p.bloodPressureDiastolic
        p.bloodSugar = EHR.VitalStatus.Critical)) = 1 := by
  decide

/-- C3 amended: `totalPatients` equals the length of the list returned
by listing all patients (both implementations); `newAdmissions` counts
`createdAt >= start of day` in `DatabaseStorage` but `createdAt >
now - 24h` in `MemStorage`; `criticalCases` counts
`systolic >= 140 OR sugar >= 200` in `DatabaseStorage` and
`systolic > 140 OR sugar > 200` in `MemStorage` — in both cases ignoring
diastolic pressure, and so differing from §4.3's Critical predicate. -/
theorem EHR.C3_amended_stats :
    (∀ (db : EHR.DB) now, (EHR.DB.getPatientStats db now).totalPatients
      = (EHR.DB.getAllPatients db).length) ∧
    (∀ (st : EHR.MemState) now, (EHR.MemState.getPatientStats st now).totalPatients
      = (EHR.MemState.getAllPatients st).length) ∧
    (∀ (db : EHR.DB) now, (EHR.DB.getPatientStats db now).newAdmissions
      = db.patients.countP (fun p => EHR.startOfDay now ≤ p.createdAt)) ∧
    (∀ (st : EHR.MemState) now, (EHR.MemState.getPatientStats st now).newAdmissions
      = st.patients.countP
          (fun p => (now : Int) - (EHR.dayMs : Int) < (p.createdAt : Int))) ∧
    (∀ (db : EHR.DB) now, (EHR.DB.getPatientStats db now).criticalCases
      = db.patients.countP
          (fun p => 140 ≤ p.bloodPressureSystolic ∨ 200 ≤ p.bloodSugar)) ∧
    (∀ (st : EHR.MemState) now, (EHR.MemState.getPatientStats st now).criticalCases
      = st.patients.countP
          (fun p => 140 < p.bloodPressureSystolic ∨ 200 < p.bloodSugar)) := by
  refine ⟨?_, ?_, ?_, ?_, ?_, ?_⟩
  · intro db now
    simp [EHR.DB.getPatientStats, EHR.DB.getAllPatients,
      EHR.length_sortByCreatedDesc]
  · intro st now; rfl
  · intro db now; rfl
  · intro st now; rfl
  · intro db now; rfl
  · intro st now; rfl

theorem decide_length_filter_pos_eq_any (l : List EHR.Patient) (id : Nat) :
    (decide (0 < (l.filter (fun p => p.id = id)).length))
      = l.any (fun p => p.id = id) := by
  rw [Bool.eq_iff_iff]
  simp [List.any_eq_true, List.length_pos, List.filter_eq_nil_iff, not_forall]

/-- C4 counterexample: on a store with one patient and one history row,
a failure of the patient-row delete (after the history delete) leaves
the store changed — the history rows are gone while the patient remains,
so the two deletes are not atomic. -/
theorem EHR.C4_counterexample :
    (EHR.DB.deletePatient EHR.db4 1 true).1 = .error () ∧
    (EHR.DB.deletePatient EHR.db4 1 true).2 ≠ EHR.db4 ∧
    (EHR.DB.deletePatient EHR.db4 1 true).2.healthHistory = [] ∧
    EHR.db4.healthHistory ≠ [] ∧
    (EHR.DB.deletePatient EHR.db4 1 true).2.patients = EHR.db4.patients :=
  ⟨rfl, by decide, by decide, by decide, by decide⟩

/-- C4 amended: `deletePatient` deletes all of the patient's history
rows and then the patient row as two sequential statements (no enclosing
transaction): a successful run removes both and returns whether a
patient row was actually removed (`false`, without throwing, for an
unknown id); a run whose second statement fails propagates the error
with the history rows already deleted and the patient row still
present. -/
theorem EHR.C4_amended_delete_cascade :
    (∀ (db : EHR.DB) id,
      (EHR.DB.deletePatient db id false).1
        = .ok (db.patients.any (fun p => p.id = id)) ∧
      (EHR.DB.deletePatient db id false).2.healthHistory
        = db.healthHistory.filter (fun h => h.patientId ≠ id) ∧
      (EHR.DB.deletePatient db id false).2.patients
        = db.patients.filter (fun p => p.id ≠ id)) ∧
    (∀ (db : EHR.DB) id,
      (EHR.DB.deletePatient db id true).1 = .error () ∧
      (EHR.DB.deletePatient db id true).2.patients = db.patients ∧
      (EHR.DB.deletePatient db id true).2.healthHistory
        = db.healthHistory.filter (fun h => h.patientId ≠ id)) := by
  refine ⟨?_, ?_⟩
  · intro db id
    refine ⟨?_, rfl, rfl⟩
    simp [EHR.DB.deletePatient, decide_length_filter_pos_eq_any]
  · intro db id
    exact ⟨rfl, rfl, rfl⟩

theorem routeId_data (t : Nat) :
    (EHR.routePatientId t).data = 'P' :: 'T' :: '-' :: EHR.natChars t := rfl

/-- C7 counterexample: at a concrete creation instant the id assigned by
the live creation path (`POST /api/patients` handler plus
`DatabaseStorage.createPatient`) is `PT-1728682000000`, which does not
match `PT-\d{4}-\d{3}`. -/
theorem EHR.C7_counterexample :
    (EHR.routeCreatePatient EHR.emptyDB EHR.sampleIns 7 1728682000000).1.patientId
      = EHR.routePatientId 1728682000000 ∧
    EHR.isPTformat (EHR.routePatientId 1728682000000) = false := by
  constructor
  · rfl
  · decide

theorem padStart3_natChars_digits (n : Nat) :
    ∀ c ∈ EHR.padStart3 (EHR.natChars n), c.isDigit = true := by
  intro c hc
  unfold EHR.padStart3 at hc
  rcases List.mem_append.mp hc with hc | hc
  · have : c = '0' := List.eq_of_mem_replicate hc
    subst this; decide
  · exact EHR.natChars_all_digit n c hc

/-- C7 amended: the id assigned on the live creation path is
`` `PT-${Date.now()}` ``, which never matches `PT-\d{4}-\d{3}` and is
distinct for distinct creation instants; the `MemStorage.createPatient`
generator `PT-2024-NNN` is injective in its counter and matches
`PT-\d{4}-\d{3}` while the counter is at most 999. -/
theorem EHR.C7_amended_patient_ids :
    (∀ t, EHR.isPTformat (EHR.routePatientId t) = false) ∧
    (∀ t t', t ≠ t' → EHR.routePatientId t ≠ EHR.routePatientId t') ∧
    (∀ a b, a ≠ b → EHR.memGenPatientId a ≠ EHR.memGenPatientId b) ∧
    (∀ n, n ≤ 999 → EHR.isPTformat (EHR.memGenPatientId n) = true) := by
  refine ⟨?_, ?_, ?_, ?_⟩
  · intro t
    show EHR.isPTfmt ('P' :: 'T' :: '-' :: EHR.natChars t) = false
    by_cases hlen : (EHR.natChars t).length = 8
    · obtain ⟨c, cs', hdrop⟩ : ∃ c cs', (EHR.natChars t).drop 4 = c :: cs' := by
        have h4 : ((EHR.natChars t).drop 4).length = 4 := by simp [hlen]
        cases hd : (EHR.natChars t).drop 4 with
        | nil => rw [hd] at h4; simp at h4
        | cons c cs' => exact ⟨c, cs', rfl⟩
      have hcmem : c ∈ EHR.natChars t :=
        List.drop_subset 4 (EHR.natChars t) (hdrop ▸ List.mem_cons_self c cs')
      have hcdig : c.isDigit = true := EHR.natChars_all_digit t c hcmem
      have hcne : (c == '-') = false := by
        rw [beq_eq_false_iff_ne]
        intro h
        subst h
        exact absurd hcdig (by decide)
      have h7 : ('P' :: 'T' :: '-' :: EHR.natChars t).drop 7
          = (EHR.natChars t).drop 4 := rfl
      unfold EHR.isPTfmt
      rw [h7, hdrop]
      simp [hcne]
    · have h11 : (('P' :: 'T' :: '-' :: EHR.natChars t).length == 11) = false := by
        simp only [List.length_cons, beq_eq_false_iff_ne]
        omega
      unfold EHR.isPTfmt
      rw [h11]
      simp
  · intro t t' hne heq
    apply hne
    apply EHR.natChars_injective
    have := congrArg String.data heq
    rw [routeId_data, routeId_data] at this
    simpa using this
  · intro a b hne heq
    apply hne
    have hdata := congrArg String.data heq
    have hpad : EHR.padStart3 (EHR.natChars a) = EHR.padStart3 (EHR.natChars b) := by
      simpa [EHR.memGenPatientId, EHR.memGenChars] using hdata
    have := congrArg EHR.decVal hpad
    rwa [EHR.decVal_padStart3, EHR.decVal_padStart3, EHR.decVal_natChars,
      EHR.decVal_natChars] at this
  · intro n hn
    have hlen3 : (EHR.padStart3 (EHR.natChars n)).length = 3 := by
      have := EHR.natChars_length_le_three n hn
      unfold EHR.padStart3
      simp only [List.length_append, List.length_replicate]
      omega
    obtain ⟨x, y, z, hxyz⟩ := List.length_eq_three.mp hlen3
    have hx : x.isDigit = true :=
      padStart3_natChars_digits n x (by rw [hxyz]; simp)
    have hy : y.isDigit = true :=
      padStart3_natChars_digits n y (by rw [hxyz]; simp)
    have hz : z.isDigit = true :=
      padStart3_natChars_digits n z (by rw [hxyz]; simp)
    show EHR.isPTfmt (EHR.memGenChars n) = true
    unfold EHR.memGenChars
    rw [hxyz]
    simp [EHR.isPTfmt, hx, hy, hz]

/-- C7 witness: distinct clock instants yield distinct route ids, and a
small counter yields a format-conforming `MemStorage` id. -/
theorem EHR.C7_witness :
    ((1 : Nat) ≠ 2 ∧ EHR.routePatientId 1 ≠ EHR.routePatientId 2) ∧
    ((4 : Nat) ≤ 999 ∧ EHR.isPTformat (EHR.memGenPatientId 4) = true) :=
  ⟨⟨by decide, EHR.C7_amended_patient_ids.2.1 1 2 (by decide)⟩,
    ⟨by decide, EHR.C7_amended_patient_ids.2.2.2 4 (by decide)⟩⟩

namespace EHR

/-- The quote-doubling `str.replace(/"/g,ered)` step of `escapeCsvField`
at character level. -/
def escChars : List Char → List Char
  | [] => []
  | c :: cs => if c = '"' then '"' :: '"' :: escChars cs else c :: escChars cs

/-- The wrapping condition of `escapeCsvField`: the value contains a
comma, double quote, newline or carriage return. -/
def needsQuote (cs : List Char) : Bool :=
  cs.any (fun c => c = ',' || c = '"' || c = '\n' || c = '\r')

/-- Embedding of the export handler's `escapeCsvField` on an
already-stringified field: double embedded quotes and wrap in quotes
when the value contains a comma, quote or newline; otherwise return it
unchanged. -/
def escapeCsvField (cs : List Char) : List Char :=
  if needsQuote cs then '"' :: (escChars cs ++ ['"']) else cs

/-- `Array.prototype.join(',')` on stringified fields. -/
def joinComma : List (List Char) → List Char
  | [] => []
  | [f] => f
  | f :: fs => f ++ ',' :: joinComma fs

/-- `Array.prototype.join('\n')` on rendered rows. -/
def joinNewline : List (List Char) → List Char
  | [] => []
  | [r] => r
  | r :: rs => r ++ '\n' :: joinNewline rs

/-- A standard CSV row reader (the re-parser of the round-trip claim):
outside quotes a comma ends the field and a quote enters quoted mode;
inside quotes a doubled quote denotes a literal quote and a single
quote leaves quoted mode. -/
def splitRow (inQ : Bool) (cur : List Char) (acc : List (List Char)) :
    List Char → List (List Char)
  | [] => acc ++ [cur]
  | c :: rest =>
    if inQ then
      if c = '"' then
        match rest with
        | [] => acc ++ [cur]
        | c2 :: rest2 =>
          if c2 = '"' then splitRow true (cur ++ ['"']) acc rest2
          else splitRow false cur acc (c2 :: rest2)
      else splitRow true (cur ++ [c]) acc rest
    else
      if c = ',' then splitRow false [] (acc ++ [cur]) rest
      else if c = '"' then splitRow true cur acc rest
      else splitRow false (cur ++ [c]) acc rest

/-- The nine field values of one export row, in the source's column
order.  `render` stands for the JavaScript number-to-string conversion
and `renderDate` for `new Date(..).toISOString().split('T')[0]`; the
escaping and ordering properties below hold for every such rendering. -/
def csvRowFields (render : ℚ → String) (renderDate : Nat → String)
    (p : Patient) : List (List Char) :=
  [p.patientId.data, p.name.data, (render p.age).data, p.phone.data,
   (render p.bloodSugar).data, (render p.bloodPressureSystolic).data,
   (render p.bloodPressureDiastolic).data, p.medicalHistory.data,
   (renderDate p.createdAt).data]

/-- One rendered export row: the escaped fields joined with commas. -/
def csvRow (render : ℚ → String) (renderDate : Nat → String)
    (p : Patient) : List Char :=
  joinComma ((csvRowFields render renderDate p).map escapeCsvField)

/-- The export's header line (including its trailing newline). -/
def csvHeader : List Char :=
  ("Patient ID,Name,Age,Phone,Blood Sugar,Systolic BP,Diastolic BP," ++
   "Medical History,Created Date").data ++ ['\n']

/-- Embedding of the `GET /api/patients/export` body: the UTF-8
byte-order mark, the header line, and the newline-joined rows. -/
def csvExport (render : ℚ → String) (renderDate : Nat → String)
    (ps : List Patient) : List Char :=
  '﻿' :: (csvHeader ++ joinNewline (ps.map (csvRow render renderDate)))

theorem needsQuote_false_chars {f : List Char} (h : needsQuote f = false) :
    ∀ c ∈ f, c ≠ ',' ∧ c ≠ '"' := by
  intro c hc
  unfold needsQuote at h
  rw [List.any_eq_false] at h
  have h2 := h c hc
  constructor
  · intro he; subst he; simp at h2
  · intro he; subst he; simp at h2

theorem splitRow_nil (inQ : Bool) (cur : List Char) (acc : List (List Char)) :
    splitRow inQ cur acc [] = acc ++ [cur] := by
  cases inQ <;> rfl

theorem splitRow_false_comma (cur : List Char) (acc : List (List Char))
    (rest : List Char) :
    splitRow false cur acc (',' :: rest) = splitRow false [] (acc ++ [cur]) rest := by
  cases rest <;> rfl

theorem splitRow_false_quote (cur : List Char) (acc : List (List Char))
    (rest : List Char) :
    splitRow false cur acc ('"' :: rest) = splitRow true cur acc rest := by
  cases rest <;> rfl

theorem splitRow_false_other (c : Char) (cur : List Char)
    (acc : List (List Char)) (rest : List Char) (h1 : c ≠ ',') (h2 : c ≠ '"') :
    splitRow false cur acc (c :: rest) = splitRow false (cur ++ [c]) acc rest := by
  cases rest <;> simp [splitRow, h1, h2]

theorem splitRow_true_quote_nil (cur : List Char) (acc : List (List Char)) :
    splitRow true cur acc ['"'] = acc ++ [cur] := rfl

theorem splitRow_true_quote_quote (cur : List Char) (acc : List (List Char))
    (rest2 : List Char) :
    splitRow true cur acc ('"' :: '"' :: rest2)
      = splitRow true (cur ++ ['"']) acc rest2 := rfl

theorem splitRow_true_quote_other (c2 : Char) (cur : List Char)
    (acc : List (List Char)) (rest2 : List Char) (h : c2 ≠ '"') :
    splitRow true cur acc ('"' :: c2 :: rest2)
      = splitRow false cur acc (c2 :: rest2) := by
  simp [splitRow, h]

theorem splitRow_true_other (c : Char) (cur : List Char)
    (acc : List (List Char)) (rest : List Char) (h : c ≠ '"') :
    splitRow true cur acc (c :: rest) = splitRow true (cur ++ [c]) acc rest := by
  cases rest <;> simp [splitRow, h]

theorem escChars_cons_quote (cs : List Char) :
    escChars ('"' :: cs) = '"' :: '"' :: escChars cs := by
  simp [escChars]

theorem escChars_cons_other (c : Char) (cs : List Char) (h : c ≠ '"') :
    escChars (c :: cs) = c :: escChars cs := by
  simp [escChars, h]

theorem splitRow_unquoted (f : List Char) (hf : ∀ c ∈ f, c ≠ ',' ∧ c ≠ '"') :
    ∀ cur acc rest,
      splitRow false cur acc (f ++ rest) = splitRow false (cur ++ f) acc rest := by
  induction f with
  | nil => intro cur acc rest; simp
  | cons c f' ih =>
    intro cur acc rest
    have hc := hf c (List.mem_cons_self c f')
    have hf' : ∀ d ∈ f', d ≠ ',' ∧ d ≠ '"' :=
      fun d hd => hf d (List.mem_cons_of_mem c hd)
    rw [List.cons_append, splitRow_false_other c cur acc _ hc.1 hc.2,
      ih hf' (cur ++ [c]) acc rest, List.append_assoc]
    rfl

theorem splitRow_quoted (f : List Char) :
    ∀ cur acc rest, rest.head? ≠ some '"' →
      splitRow true cur acc (escChars f ++ '"' :: rest)
        = splitRow false (cur ++ f) acc rest := by
  induction f with
  | nil =>
    intro cur acc rest hrest
    rw [show escChars [] = [] from rfl, List.nil_append, List.append_nil]
    cases rest with
    | nil => rw [splitRow_true_quote_nil, splitRow_nil]
    | cons c2 rest2 =>
      have hc2 : c2 ≠ '"' := fun h => hrest (by simp [h])
      rw [splitRow_true_quote_other c2 cur acc rest2 hc2]
  | cons c f' ih =>
    intro cur acc rest hrest
    by_cases hc : c = '"'
    · subst hc
      rw [escChars_cons_quote, List.cons_append, List.cons_append,
        splitRow_true_quote_quote, ih (cur ++ ['"']) acc rest hrest,
        List.append_assoc]
      rfl
    · rw [escChars_cons_other c f' hc, List.cons_append,
        splitRow_true_other c cur acc _ hc, ih (cur ++ [c]) acc rest hrest,
        List.append_assoc]
      rfl

theorem splitRow_joinComma (fields : List (List Char)) (hne : fields ≠ []) :
    ∀ acc, splitRow false [] acc (joinComma (fields.map escapeCsvField))
      = acc ++ fields := by
  induction fields with
  | nil => exact absurd rfl hne
  | cons f fs ih =>
    intro acc
    cases fs with
    | nil =>
      show splitRow false [] acc (joinComma [escapeCsvField f]) = _
      rw [show joinComma [escapeCsvField f] = escapeCsvField f from rfl]
      by_cases hq : needsQuote f = true
      · rw [show escapeCsvField f = '"' :: (escChars f ++ ['"']) from by
          simp [escapeCsvField, hq]]
        rw [splitRow_false_quote,
          show (escChars f ++ ['"'] : List Char) = escChars f ++ '"' :: [] from rfl,
          splitRow_quoted f [] acc [] (by simp), List.nil_append, splitRow_nil]
      · have hq' : needsQuote f = false := by simpa using hq
        rw [show escapeCsvField f = f from by simp [escapeCsvField, hq']]
        have := splitRow_unquoted f (needsQuote_false_chars hq') [] acc []
        rw [List.append_nil, List.nil_append] at this
        rw [this, splitRow_nil]
    | cons f2 fs2 =>
      rw [show joinComma ((f :: f2 :: fs2).map escapeCsvField)
          = escapeCsvField f ++ ',' :: joinComma ((f2 :: fs2).map escapeCsvField)
        from rfl]
      by_cases hq : needsQuote f = true
      · rw [show escapeCsvField f = '"' :: (escChars f ++ ['"']) from by
          simp [escapeCsvField, hq]]
        rw [List.cons_append, splitRow_false_quote, List.append_assoc,
          show (['"'] ++ ',' :: joinComma ((f2 :: fs2).map escapeCsvField)
              : List Char)
            = '"' :: ',' :: joinComma ((f2 :: fs2).map escapeCsvField) from rfl,
          splitRow_quoted f [] acc _ (by simp), List.nil_append,
          splitRow_false_comma, ih (by simp) (acc ++ [f]), List.append_assoc]
        rfl
      · have hq' : needsQuote f = false := by simpa using hq
        rw [show escapeCsvField f = f from by simp [escapeCsvField, hq']]
        rw [splitRow_unquoted f (needsQuote_false_chars hq') [] acc _,
          List.nil_append, splitRow_false_comma, ih (by simp) (acc ++ [f]),
          List.append_assoc]
        rfl

end EHR

/-- C8: the CSV export starts with the UTF-8 byte-order mark; parsing a
rendered row with a standard CSV reader recovers exactly the nine field
values in the fixed column order `[patientId, name, age, phone,
bloodSugar, systolicBP, diastolicBP, medicalHistory, createdDate]`
(round-trip, for arbitrary field contents and any number/date
rendering); and a field is wrapped in double quotes with embedded quotes
doubled exactly when it contains a comma, quote or newline. -/
theorem EHR.C8_csv_escaping_roundtrip :
    (∀ (render : ℚ → String) (renderDate : Nat → String)
        (ps : List EHR.Patient),
      (EHR.csvExport render renderDate ps).head? = some '﻿') ∧
    (∀ (render : ℚ → String) (renderDate : Nat → String) (p : EHR.Patient),
      EHR.splitRow false [] [] (EHR.csvRow render renderDate p)
        = EHR.csvRowFields render renderDate p) ∧
    (∀ f : List Char, EHR.needsQuote f = true →
      EHR.escapeCsvField f = '"' :: (EHR.escChars f ++ ['"'])) ∧
    (∀ f : List Char, EHR.needsQuote f = false → EHR.escapeCsvField f = f) := by
  refine ⟨?_, ?_, ?_, ?_⟩
  · intro render renderDate ps; rfl
  · intro render renderDate p
    have h := EHR.splitRow_joinComma (EHR.csvRowFields render renderDate p)
      (by simp [EHR.csvRowFields]) []
    simpa [EHR.csvRow] using h
  · intro f hq; simp [EHR.escapeCsvField, hq]
  · intro f hq; simp [EHR.escapeCsvField, hq]

/-- C8 witness: a value containing a comma is wrapped and quote-doubled;
a plain value is left unchanged. -/
theorem EHR.C8_witness :
    (EHR.needsQuote ("Brien, John".data) = true ∧
      EHR.escapeCsvField ("Brien, John".data)
        = '"' :: (EHR.escChars ("Brien, John".data) ++ ['"'])) ∧
    (EHR.needsQuote ("plain".data) = false ∧
      EHR.escapeCsvField ("plain".data) = "plain".data) :=
  ⟨⟨by decide, EHR.C8_csv_escaping_roundtrip.2.2.1 _ (by decide)⟩,
    ⟨by decide, EHR.C8_csv_escaping_roundtrip.2.2.2 _ (by decide)⟩⟩

namespace EHR

/-- The two genders accepted by the health-prediction input schema. -/
inductive Gender where
  | male
  | female
deriving DecidableEq, Repr

/-- The input of the health-risk estimator. -/
structure HealthPredictionInput where
  age : ℚ
  gender : Gender
  systolicBP : ℚ
  diastolicBP : ℚ
  bloodSugar : ℚ
  bmi : ℚ
deriving DecidableEq, Repr

/-- The output of the health-risk estimator. -/
structure HealthPredictionResult where
  cardiovascularRisk : ℚ
  diabetesRisk : ℚ
  overallHealthScore : ℚ
  recommendations : List String
deriving DecidableEq, Repr

/-- The output of the image analyzer. -/
structure ImageAnalysisResult where
  abnormalityDetected : Bool
  confidence : ℚ
  findings : String
  recommendations : List String
deriving DecidableEq, Repr

/-- Embedding of `PythonMLInterface.fallbackHealthPrediction`: pure
threshold arithmetic over the input, with the overall score computed
from the uncapped risk sums and the risks capped at 100 on return. -/
def fallbackHealthPrediction (input : HealthPredictionInput) :
    HealthPredictionResult :=
  let cardiovascularRisk : ℚ :=
    (if input.systolicBP > 140 ∨ input.diastolicBP > 90 then 30 else 0) +
    (if input.age > 65 then 20 else 0) +
    (if input.gender = .male then 10 else 0) +
    (if input.bmi > 30 then 15 else 0) +
    (if input.bloodSugar > 200 then 25 else 0)
  let diabetesRisk : ℚ :=
    (if input.bloodSugar > 126 then 40 else 0) +
    (if input.bmi > 30 then 25 else 0) +
    (if input.age > 45 then 15 else 0) +
    (if input.systolicBP > 140 then 10 else 0)
  let overallHealthScore : ℚ :=
    max 0 (100 - (cardiovascularRisk + diabetesRisk) / 2)
  let recommendations : List String :=
    (if input.systolicBP > 140 then ["Monitor blood pressure regularly"] else []) ++
    (if input.bloodSugar > 126 then
      ["Consult endocrinologist for diabetes management"] else []) ++
    (if input.bmi > 30 then ["Consider weight management program"] else []) ++
    (if overallHealthScore < 70 then
      ["Schedule comprehensive health checkup"] else [])
  { cardiovascularRisk := min 100 cardiovascularRisk
    diabetesRisk := min 100 diabetesRisk
    overallHealthScore := overallHealthScore
    recommendations := recommendations }

/-- Embedding of `PythonMLInterface.predictHealthRisk`: the outcome of
the external Python process is the `primary` argument; a rejection is
caught and replaced by the deterministic fallback, so the method always
returns a result. -/
def predictHealthRisk (primary : Except String HealthPredictionResult)
    (input : HealthPredictionInput) : HealthPredictionResult :=
  match primary with
  | .ok r => r
  | .error _ => fallbackHealthPrediction input

/-- Embedding of `PythonMLInterface.fallbackImageAnalysis`: `r1` and
`r2` are the two `Math.random()` draws (confidence, then abnormality);
the findings and recommendations depend on the abnormality draw and the
analysis type, not on the filename. -/
def fallbackImageAnalysis (filename analysisType : String) (r1 r2 : ℚ) :
    ImageAnalysisResult :=
  let confidence : ℚ := 85 / 100 + r1 * (15 / 100)
  let abnormalityDetected : Bool := r2 < 2 / 10
  let fr : String × List String :=
    if abnormalityDetected then
      if analysisType = "xray" then
        ("Mild opacity detected in lower lung field. May indicate early infection or inflammation.",
         ["Recommend follow-up CT scan", "Consider antibiotic treatment",
          "Monitor symptoms closely"])
      else if analysisType = "ct" then
        ("Small nodule detected in lung. Requires further evaluation.",
         ["Schedule PET scan", "Consult oncologist", "Follow-up in 3 months"])
      else if analysisType = "mri" then
        ("Minor signal abnormality in brain tissue. Likely benign but needs monitoring.",
         ["Repeat MRI in 6 months", "Neurological consultation",
          "Monitor for symptoms"])
      else
        ("Abnormal tissue pattern detected. Requires specialist review.",
         ["Consult specialist", "Additional imaging recommended"])
    else
      ("No significant abnormalities detected. Normal anatomical structures observed.",
       ["Continue routine monitoring", "No immediate action required"])
  { abnormalityDetected := abnormalityDetected
    confidence := confidence
    findings := fr.1
    recommendations := fr.2 }

/-- Embedding of `PythonMLInterface.analyzeImage`: a primary failure is
caught and replaced by the fallback (which consumes two random draws). -/
def analyzeImage (primary : Except String ImageAnalysisResult)
    (filename analysisType : String) (r1 r2 : ℚ) : ImageAnalysisResult :=
  match primary with
  | .ok r => r
  | .error _ => fallbackImageAnalysis filename analysisType r1 r2

end EHR

/-- C9 counterexample: with the primary estimator failing identically
and the same input, two invocations of the image-analysis fallback can
return different results — its output depends on the `Math.random()`
draws, so it is not a deterministic function of its inputs. -/
theorem EHR.C9_counterexample :
    EHR.analyzeImage (.error "spawn failed") "img.png" "xray" (1/2) (1/10)
      ≠ EHR.analyzeImage (.error "spawn failed") "img.png" "xray" (1/2) (9/10) := by
  intro h
  have ha : (EHR.analyzeImage (.error "spawn failed") "img.png" "xray"
      (1/2) (1/10)).abnormalityDetected = true := by
    simpa [EHR.analyzeImage, EHR.fallbackImageAnalysis] using
      (by norm_num : (1/10 : ℚ) < 2/10)
  have hb : (EHR.analyzeImage (.error "spawn failed") "img.png" "xray"
      (1/2) (9/10)).abnormalityDetected = false := by
    simpa [EHR.analyzeImage, EHR.fallbackImageAnalysis] using
      (by norm_num : ¬((9/10 : ℚ) < 2/10))
  rw [h] at ha
  rw [ha] at hb
  cases hb

/-- C9 amended: a failure of the primary estimator never fails the
enclosing request — both methods return the fallback result.  The
health-risk fallback is a deterministic, dependency-free function of the
input alone (identical results for any two failures), while the
image-analysis fallback is deterministic only in the input together with
the two random draws: draws on opposite sides of the 0.2 threshold give
different `abnormalityDetected` values for the same input. -/
theorem EHR.C9_amended_fallback_determinism :
    (∀ e input, EHR.predictHealthRisk (.error e) input
      = EHR.fallbackHealthPrediction input) ∧
    (∀ e1 e2 input, EHR.predictHealthRisk (.error e1) input
      = EHR.predictHealthRisk (.error e2) input) ∧
    (∀ e fn ty r1 r2, EHR.analyzeImage (.error e) fn ty r1 r2
      = EHR.fallbackImageAnalysis fn ty r1 r2) ∧
    (∀ fn ty r1 r2 r2', r2 < 2/10 → ¬(r2' < 2/10) →
      (EHR.fallbackImageAnalysis fn ty r1 r2).abnormalityDetected = true ∧
      (EHR.fallbackImageAnalysis fn ty r1 r2').abnormalityDetected = false) := by
  refine ⟨fun e input => rfl, fun e1 e2 input => rfl, fun e fn ty r1 r2 => rfl, ?_⟩
  intro fn ty r1 r2 r2' h hn
  constructor
  · simpa [EHR.fallbackImageAnalysis] using h
  · simpa [EHR.fallbackImageAnalysis] using hn

/-- C9 witness: the threshold split of the image fallback at concrete
draws 0.1 and 0.9. -/
theorem EHR.C9_witness :
    ((1/10 : ℚ) < 2/10 ∧ ¬((9/10 : ℚ) < 2/10)) ∧
    (EHR.fallbackImageAnalysis "img.png" "xray" (1/2) (1/10)).abnormalityDetected
      = true ∧
    (EHR.fallbackImageAnalysis "img.png" "xray" (1/2) (9/10)).abnormalityDetected
      = false :=
  ⟨⟨by norm_num, by norm_num⟩,
    (EHR.C9_amended_fallback_determinism.2.2.2 "img.png" "xray" (1/2) (1/10) (9/10)
      (by norm_num) (by norm_num)).1,
    (EHR.C9_amended_fallback_determinism.2.2.2 "img.png" "xray" (1/2) (1/10) (9/10)
      (by norm_num) (by norm_num)).2⟩
